import Mathlib

/-!
Verification of the SurflineFetcher repository.

The repository harvests marine-forecast JSON payloads, flattens them into
tidy CSV rows, and computes a 24-hour forecast-drift metric.  This file
gives a shallow embedding of the relevant source functions:

* a small model of decoded JSON values together with the Python dynamic
  operations the flatteners use (`dict.get`, truthiness, `or`, iteration,
  `dict.items`), where operations that would raise a Python exception
  (`AttributeError`, `TypeError`) are modelled in the `Except` monad;
* the schema flatteners `SurfCSV.flatten`, `SwellsCSV.flatten`,
  `SpectraCSV.flatten` (from `surfline_client.py`) and `WaveCSV.flatten`
  (from `surfline_api_class.py`);
* the CSV writers `_write_dict_rows` (both copies) over an explicit
  file-system state;
* the harvest loop of `fetch_forecast_history.py`, with network results
  supplied by an oracle so that every failure pattern can be quantified;
* the retry loop of `SurflineAPI._get` from `surfline_client.py`;
* the drift join `compute_24h_forecast_drift` and the filename date-tag
  encoding/parsing of `analyze_history.py`, `fetch_forecast_history.py`
  and `surfline_hb_northside.py`.

Rational numbers stand in for Python floats (all claim-relevant values are
exact decimals), and timestamps are integers of seconds since the epoch.
-/

/-! ## JSON values and Python dynamic semantics -/

/-- A decoded JSON value, as produced by `response.json()`. -/
inductive JVal where
  | null : JVal
  | jbool : Bool → JVal
  | num : ℚ → JVal
  | jstr : String → JVal
  | arr : List JVal → JVal
  | obj : List (String × JVal) → JVal

/-- Python truthiness: `None`, `False`, `0`, `""`, `[]`, `{}` are falsy. -/
def truthy : JVal → Bool
  | .null => false
  | .jbool b => b
  | .num q => decide (q ≠ 0)
  | .jstr s => decide (s ≠ "")
  | .arr xs => !xs.isEmpty
  | .obj kvs => !kvs.isEmpty

/-- Python `a or b`: returns `a` when truthy, else `b`. -/
def pyOr (a b : JVal) : JVal := if truthy a then a else b

/-- The Python exceptions the flatteners can raise. -/
inductive PyErr where
  | attributeError : PyErr
  | typeError : PyErr
deriving DecidableEq

/-- Computations that may raise a Python exception. -/
abbrev PyM (α : Type) : Type := Except PyErr α

/-- Is this value a JSON array (Python `list`)? -/
def JVal.isArrB : JVal → Bool
  | .arr _ => true
  | _ => false

/-- Is this value a JSON object (Python `dict`)? -/
def JVal.isObjB : JVal → Bool
  | .obj _ => true
  | _ => false

/-- Is this value scalar-like, i.e. `isinstance(v, (str, int, float, bool))
or v is None` in `_flatten_simple_fields`? -/
def isScalarLike : JVal → Bool
  | .null => true
  | .jbool _ => true
  | .num _ => true
  | .jstr _ => true
  | .arr _ => false
  | .obj _ => false

/-- Lookup in a JSON object, first binding wins (Python dicts have unique
keys, so payload objects are assumed well-formed). -/
def objLookup (kvs : List (String × JVal)) (k : String) : Option JVal :=
  (kvs.find? (fun kv => kv.1 = k)).map (fun kv => kv.2)

/-- Python `v.get(k, dflt)`: only dicts have `.get`; any other receiver
raises `AttributeError`. -/
def dictGet (v : JVal) (k : String) (dflt : JVal) : PyM JVal :=
  match v with
  | .obj kvs => .ok ((objLookup kvs k).getD dflt)
  | _ => .error .attributeError

/-- Python `for x in v`: lists yield elements, strings yield 1-character
strings, dicts yield their keys; other values raise `TypeError`. -/
def pyIter : JVal → PyM (List JVal)
  | .arr xs => .ok xs
  | .jstr s => .ok (s.data.map (fun c => .jstr (String.mk [c])))
  | .obj kvs => .ok (kvs.map (fun kv => .jstr kv.1))
  | _ => .error .typeError

/-- A flattened row: a Python dict with insertion order, as consumed by
`csv.DictWriter`. -/
abbrev Row : Type := List (String × JVal)

/-- Python `row[k] = v`: replace in place when the key exists, else append. -/
def rowSet (r : Row) (k : String) (v : JVal) : Row :=
  if r.any (fun kv => kv.1 = k)
  then r.map (fun kv => if kv.1 = k then (k, v) else kv)
  else r ++ [(k, v)]

/-- Python `row.update(kvs)`. -/
def rowUpdate (r : Row) (kvs : Row) : Row :=
  kvs.foldl (fun acc kv => rowSet acc kv.1 kv.2) r

/-- Effectful `map` in source order; an exception aborts the whole loop,
matching a Python `for` body that raises. -/
def mapME (f : α → PyM β) : List α → PyM (List β)
  | [] => .ok []
  | a :: as => do
      let b ← f a
      let bs ← mapME f as
      return b :: bs

/-- Effectful left fold in source order. -/
def foldlME (f : ρ → α → PyM ρ) : ρ → List α → PyM ρ
  | r, [] => .ok r
  | r, a :: as => do
      let r2 ← f r a
      foldlME f r2 as

/-- `enumerate(xs, start = n)`. -/
def enumFromN : ℕ → List α → List (ℕ × α)
  | _, [] => []
  | n, a :: as => (n, a) :: enumFromN (n + 1) as

/-- The scalar fields of a dict's binding list, keys prefixed. -/
def scalarFieldsOf (kvs : List (String × JVal)) (pre : String) : Row :=
  (kvs.filter (fun kv => isScalarLike kv.2)).map (fun kv => (pre ++ kv.1, kv.2))

/-- `_flatten_simple_fields(obj, prefix)` from `surfline_client.py`:
keeps scalar-like fields only; `.items()` on a non-dict raises. -/
def flatten_simple_fields (v : JVal) (pre : String) : PyM Row :=
  match v with
  | .obj kvs => .ok (scalarFieldsOf kvs pre)
  | _ => .error .attributeError

/-- `_first_list_in_data(data)` from `surfline_client.py`: the first
list-valued entry of the dict, else `[]`; `.values()` on a non-dict raises. -/
def firstListOfObj (kvs : List (String × JVal)) : JVal :=
  match kvs.find? (fun kv => kv.2.isArrB) with
  | some kv => kv.2
  | none => .arr []

/-- `_first_list_in_data` with the Python receiver check. -/
def first_list_in_data (v : JVal) : PyM JVal :=
  match v with
  | .obj kvs => .ok (firstListOfObj kvs)
  | _ => .error .attributeError

/-! ## SurfCSV.flatten (surfline_client.py lines 379-397) -/

/-- The body of `SurfCSV.flatten`'s point loop. -/
def surfFlattenPoint (point : JVal) : PyM Row := do
  let ts ← dictGet point "timestamp" .null
  let row : Row := [("timestamp", ts)]
  let sv ← dictGet point "surf" .null
  let surf_block := pyOr sv (.obj [])
  let row :=
    match surf_block with
    | .obj kvs =>
        let row := rowSet row "surf_min" ((objLookup kvs "min").getD .null)
        let row := rowSet row "surf_max" ((objLookup kvs "max").getD .null)
        rowSet row "surf_humanRelation" ((objLookup kvs "humanRelation").getD .null)
    | _ => row
  let simple ← flatten_simple_fields point ""
  return rowUpdate row simple

/-- `SurfCSV.flatten` from `surfline_client.py`. -/
def SurfCSV_flatten (json_obj : JVal) : PyM (List Row) := do
  let data ← dictGet (pyOr json_obj (.obj [])) "data" (.obj [])
  let s1 ← dictGet data "surf" .null
  let series ← if truthy s1 then pure s1 else first_list_in_data data
  let pts ← pyIter (pyOr series (.arr []))
  mapME surfFlattenPoint pts

/-! ## SwellsCSV.flatten (surfline_client.py lines 411-426) -/

/-- The body of `SwellsCSV.flatten`'s inner component loop: a row holding
the point's timestamp, the 1-based `component_index`, and the component's
scalar fields under a `swell_` prefix. -/
def swellsCompRow (ts : JVal) (is : ℕ × JVal) : PyM Row := do
  let simple ← flatten_simple_fields is.2 "swell_"
  return rowUpdate [("timestamp", ts), ("component_index", .num (is.1 : ℚ))] simple

/-- The body of `SwellsCSV.flatten`'s point loop: one row per swell
component, `component_index` counted from 1 over the full list. -/
def swellsFlattenPoint (point : JVal) : PyM (List Row) := do
  let ts ← dictGet point "timestamp" .null
  let c ← dictGet point "swells" .null
  let comps0 := pyOr c (.arr [])
  let comps : List JVal :=
    match comps0 with
    | .arr xs => xs
    | _ => []
  mapME (swellsCompRow ts) (enumFromN 1 comps)

/-- `SwellsCSV.flatten` from `surfline_client.py`. -/
def SwellsCSV_flatten (json_obj : JVal) : PyM (List Row) := do
  let data ← dictGet (pyOr json_obj (.obj [])) "data" (.obj [])
  let s1 ← dictGet data "swells" .null
  let series ← if truthy s1 then pure s1 else first_list_in_data data
  let pts ← pyIter (pyOr series (.arr []))
  let rowss ← mapME swellsFlattenPoint pts
  return rowss.flatten

/-! ## SpectraCSV.flatten (surfline_client.py lines 483-512) -/

/-- The body of `SpectraCSV.flatten`'s point loop; every access is guarded
by an `isinstance` check in the source, so this part is pure. -/
def spectraFlattenPoint (point : JVal) : List Row :=
  match point with
  | .obj kvs =>
      let ts := (objLookup kvs "timestamp").getD .null
      let bins0 := pyOr ((objLookup kvs "bins").getD .null)
                     (pyOr ((objLookup kvs "data").getD .null) (.arr []))
      match bins0 with
      | .arr bs =>
          (enumFromN 1 bs).foldl (fun acc ib =>
            match ib.2 with
            | .obj bkvs =>
                acc ++ [rowUpdate [("timestamp", ts), ("bin_index", .num (ib.1 : ℚ))]
                          (scalarFieldsOf bkvs "bin_")]
            | _ => acc) []
      | _ => []
  | _ => []

/-- The part of `SpectraCSV.flatten` after the `data` lookup, where every
access is guarded by an `isinstance` check: non-dict `data` and non-list
series both bail out with the empty row list. -/
def spectraFromData (data : JVal) : List Row :=
  match data with
  | .obj kvs =>
      match pyOr ((objLookup kvs "spectra").getD .null) (firstListOfObj kvs) with
      | .arr pts => pts.foldl (fun acc p => acc ++ spectraFlattenPoint p) []
      | _ => []
  | _ => []

/-- `SpectraCSV.flatten` from `surfline_client.py`: bails out with an empty
result when `data` is not a dict or the series is not a list, but the
initial `(json_obj or {}).get("data", {})` can still raise on a truthy
non-dict payload. -/
def SpectraCSV_flatten (json_obj : JVal) : PyM (List Row) := do
  let data ← dictGet (pyOr json_obj (.obj [])) "data" (.obj [])
  return spectraFromData data

/-! ## WaveCSV.flatten (surfline_api_class.py lines 191-215) -/

/-- The body of `WaveCSV.flatten`'s point loop: surf min/max plus the first
six swell components, field names indexed from 1. -/
def waveFlattenPoint (point : JVal) : PyM Row := do
  let ts ← dictGet point "timestamp" .null
  let sv ← dictGet point "surf" .null
  let mn ← dictGet (pyOr sv (.obj [])) "min" .null
  let sv2 ← dictGet point "surf" .null
  let mx ← dictGet (pyOr sv2 (.obj [])) "max" .null
  let row : Row := [("timestamp", ts), ("surf_min", mn), ("surf_max", mx)]
  let sw ← dictGet point "swells" (.arr [])
  let swells := pyOr sw (.arr [])
  let comps ← match swells with
    | .arr xs => Except.ok (xs.take 6)
    | _ => Except.error PyErr.typeError
  foldlME (fun r is => do
      let h ← dictGet is.2 "height" .null
      let p ← dictGet is.2 "period" .null
      let d ← dictGet is.2 "direction" .null
      let r := rowSet r ("swell" ++ toString is.1 ++ "_height_m") h
      let r := rowSet r ("swell" ++ toString is.1 ++ "_period_s") p
      return rowSet r ("swell" ++ toString is.1 ++ "_direction_deg") d)
    row (enumFromN 1 comps)

/-- `WaveCSV.flatten` from `surfline_api_class.py`. -/
def WaveCSV_flatten (json_obj : JVal) : PyM (List Row) := do
  let data ← dictGet (pyOr json_obj (.obj [])) "data" (.obj [])
  let w1 ← dictGet data "wave" .null
  let series ←
    if truthy w1 then pure w1
    else do
      let w2 ← dictGet data "waveModel" .null
      pure (pyOr w2 (.arr []))
  let pts ← pyIter series
  mapME waveFlattenPoint pts

/-! ## CSV writers (surfline_client.py lines 336-355, surfline_api_class.py lines 221-239) -/

/-- The observable file-system state the writers act on: written files
(path to header fieldnames and rows, `"w"` mode overwrites), directories
created by `os.makedirs`, and stderr warnings. -/
structure FileSys where
  files : List (String × (List String × List Row))
  dirs : List String
  warnings : List String
deriving Inhabited

/-- Lookup of a written file by path. -/
def lookupFile (fs : FileSys) (path : String) : Option (List String × List Row) :=
  ((fs.files.find? (fun pf => pf.1 = path))).map (fun pf => pf.2)

/-- Replace an existing path or append a new one (open with mode `"w"`). -/
def setFile (files : List (String × (List String × List Row))) (path : String)
    (content : List String × List Row) : List (String × (List String × List Row)) :=
  if files.any (fun pf => pf.1 = path)
  then files.map (fun pf => if pf.1 = path then (path, content) else pf)
  else files ++ [(path, content)]

/-- First-seen-order union of the keys of all rows (the writers' fieldname
accumulation loop). -/
def fieldnamesOf (rows : List Row) : List String :=
  rows.foldl (fun acc r => r.foldl (fun a kv => if kv.1 ∈ a then a else a ++ [kv.1]) acc) []

/-- `os.path.dirname`: everything before the last slash, `""` if none. -/
def dirnameOf (path : String) : String :=
  match (path.data.reverse.dropWhile (fun c => c ≠ '/')).tail? with
  | some rest => String.mk rest.reverse
  | none => ""

/-- `_write_dict_rows` from `surfline_client.py`: empty row lists print a
warning and return before touching the file system; otherwise the parent
folder is created and the file written (overwriting any previous one). -/
def write_dict_rows (rows : List Row) (path : String) (fs : FileSys) : FileSys :=
  if rows.isEmpty then { fs with warnings := fs.warnings ++ [path] }
  else
    let folder := dirnameOf path
    let fs1 := if folder ≠ "" ∧ folder ∉ fs.dirs then { fs with dirs := fs.dirs ++ [folder] } else fs
    { fs1 with files := setFile fs1.files path (fieldnamesOf rows, rows) }

/-- `WaveCSV._write_dict_rows` from `surfline_api_class.py`: same policy,
but without the `os.makedirs` call. -/
def waveCsv_write_dict_rows (rows : List Row) (path : String) (fs : FileSys) : FileSys :=
  if rows.isEmpty then { fs with warnings := fs.warnings ++ [path] }
  else { fs with files := setFile fs.files path (fieldnamesOf rows, rows) }

/-! ## Harvest loop (fetch_forecast_history.py lines 124-295)

Calendar days are abstracted as integers (the loop `cur += timedelta(days=1)`
becomes `+ 1`); the network along with the flattening of each series kind is
an oracle mapping `(day, kind)` to either tidy rows or a raised exception,
so that every pattern of per-request failures can be quantified over. -/

/-- The series kinds fetched per day, in source order. -/
inductive SeriesKind where
  | surf | swells | rating | spectra | sunlight | wind | tides | conditions
deriving DecidableEq

/-- File-name piece for a series kind. -/
def SeriesKind.slug : SeriesKind → String
  | .surf => "surf"
  | .swells => "swells"
  | .rating => "rating"
  | .spectra => "spectra"
  | .sunlight => "sunlight"
  | .wind => "wind"
  | .tides => "tides"
  | .conditions => "conditions"

/-- The kinds processed for one day: seven unconditionally, plus regional
conditions when a subregion id was supplied. -/
def seriesKinds (subregion : Option String) : List SeriesKind :=
  [.surf, .swells, .rating, .spectra, .sunlight, .wind, .tides] ++
    (match subregion with
     | some _ => [.conditions]
     | none => [])

/-- The inclusive day range of the `while cur <= end` loop. -/
def dateRange (start endDay : ℤ) : List ℤ :=
  if start ≤ endDay
  then (List.range ((endDay - start).toNat + 1)).map (fun (i : ℕ) => start + (i : ℤ))
  else []

/-- Accumulated observable effects of one harvest run. -/
structure HarvestResult where
  attempts : List (ℤ × SeriesKind)
  errors : List (ℤ × SeriesKind)
  fs : FileSys

/-- Output path for one `(day, kind)` pair. -/
def harvestPath (spotSlug : String) (day : ℤ) (k : SeriesKind) : String :=
  "forecasts/" ++ spotSlug ++ "/" ++ spotSlug ++ "_" ++ k.slug ++ "_" ++ toString day ++ ".csv"

/-- One `try: fetch; flatten; write except Exception: log` block of the
harvest loop.  The oracle result is recorded as a written file on success
and as a logged error on failure; either way the loop continues. -/
def harvestStep (oracle : ℤ → SeriesKind → PyM (List Row)) (spotSlug : String)
    (day : ℤ) (st : HarvestResult) (k : SeriesKind) : HarvestResult :=
  let st := { st with attempts := st.attempts ++ [(day, k)] }
  match oracle day k with
  | .ok rows => { st with fs := write_dict_rows rows (harvestPath spotSlug day k) st.fs }
  | .error _ => { st with errors := st.errors ++ [(day, k)] }

/-- `harvest_forecasts_for_range`: iterate the inclusive day range and, for
each day, every series kind in order. -/
def harvest_forecasts_for_range (oracle : ℤ → SeriesKind → PyM (List Row))
    (spotSlug : String) (start endDay : ℤ) (subregion : Option String) : HarvestResult :=
  (dateRange start endDay).foldl
    (fun st day => (seriesKinds subregion).foldl (harvestStep oracle spotSlug day) st)
    ⟨[], [], ⟨[], [], []⟩⟩

/-! ## Rate-limited GET (surfline_client.py lines 128-170)

`SurflineAPI._get` loops `for attempt in range(1, 6)`, retrying only on
HTTP 429 and raising `RuntimeError` once the loop ends.  The network is an
oracle from attempt number to outcome; the structural `fuel` argument
counts the attempts remaining out of `max_attempts = 5`. -/

/-- Outcome of one `session.get` + `raise_for_status`. -/
inductive HttpResp where
  | success : ℕ → HttpResp
  | httpErr : ℕ → Option String → HttpResp
  | httpErrNoResp : HttpResp
  | otherExc : HttpResp

/-- How `_get` terminates. -/
inductive FetchErr where
  | rateLimitExhausted : FetchErr
  | httpError : ℕ → FetchErr
  | httpErrorNoStatus : FetchErr
  | otherError : FetchErr
deriving DecidableEq

deriving instance DecidableEq for Except

/-- Observable outcome of a `_get` call: the returned payload or raised
error, the sleeps performed (seconds), and the number of attempts issued. -/
structure GetOutcome where
  result : Except FetchErr ℕ
  sleeps : List ℚ
  attemptsMade : ℕ
deriving DecidableEq

/-- Python `str.isdigit` restricted to ASCII (an empty header is falsy). -/
def strIsDigits (s : String) : Bool := (!s.isEmpty) && s.data.all Char.isDigit

/-- `int(s)` on a digits-only string. -/
def strToNatD (s : String) : ℕ := s.data.foldl (fun a c => 10 * a + (c.toNat - 48)) 0

/-- The sleep chosen on a 429: the `Retry-After` header when it is a digit
string, else `base_sleep * attempt` with `base_sleep = 5.0`. -/
def computeWait (retryAfter : Option String) (attempt : ℕ) : ℚ :=
  match retryAfter with
  | some h => if strIsDigits h then (strToNatD h : ℚ) else 5 * (attempt : ℚ)
  | none => 5 * (attempt : ℚ)

/-- The retry loop of `_get`.  `fuel` is the number of loop iterations left;
when it reaches zero the `for` loop has ended and the final `RuntimeError`
("Too many 429 responses") is raised. -/
def getLoop (resp : ℕ → HttpResp) : ℕ → ℕ → List ℚ → GetOutcome
  | 0, attempt, sleeps => ⟨.error .rateLimitExhausted, sleeps, attempt - 1⟩
  | fuel + 1, attempt, sleeps =>
      match resp attempt with
      | .success p => ⟨.ok p, sleeps, attempt⟩
      | .httpErr s ra =>
          if s = 429
          then getLoop resp fuel (attempt + 1) (sleeps ++ [computeWait ra attempt])
          else ⟨.error (.httpError s), sleeps, attempt⟩
      | .httpErrNoResp => ⟨.error .httpErrorNoStatus, sleeps, attempt⟩
      | .otherExc => ⟨.error .otherError, sleeps, attempt⟩

/-- `SurflineAPI._get` with `max_attempts = 5`. -/
def surfline_api_get (resp : ℕ → HttpResp) : GetOutcome := getLoop resp 5 1 []

/-! ## Drift analysis (analyze_history.py lines 138-165)

Timestamps are integer epoch seconds (`issue_date` is a UTC midnight,
`valid_time` a forecast valid time); `pd.Timedelta(days=1)` is 86400
seconds.  `surf_mid` is a rational, `none` standing for NaN so that the
`dropna()` is represented. -/

/-- One row of the tidy surf dataset fed to `compute_24h_forecast_drift`. -/
structure SurfRow where
  issue_date : ℤ
  valid_time : ℤ
  surf_mid : Option ℚ
deriving DecidableEq

/-- A row surviving `dropna()`. -/
structure BaseRow where
  issue_date : ℤ
  valid_time : ℤ
  surf_mid : ℚ
deriving DecidableEq

/-- One day in seconds. -/
def oneDay : ℤ := 86400

/-- `df[["issue_date", "valid_time", "surf_mid"]].dropna()`. -/
def baseRows (df : List SurfRow) : List BaseRow :=
  df.filterMap (fun r => r.surf_mid.map (fun m => ⟨r.issue_date, r.valid_time, m⟩))

/-- Python float `.abs()`. -/
def absQ (q : ℚ) : ℚ := if q < 0 then -q else q

/-- One matched row of the merged drift frame. -/
structure DriftPair where
  issue_date_D : ℤ
  valid_time : ℤ
  surf_mid_D : ℚ
  next_issue_date : ℤ
  issue_date_Dplus1 : ℤ
  surf_mid_Dplus1 : ℚ
  error : ℚ
  abs_error : ℚ
  hour : ℤ
deriving DecidableEq

/-- The merged row built from a day-D row and a day-D+1 row. -/
def mkDriftPair (l r : BaseRow) : DriftPair :=
  { issue_date_D := l.issue_date
    valid_time := l.valid_time
    surf_mid_D := l.surf_mid
    next_issue_date := l.issue_date + oneDay
    issue_date_Dplus1 := r.issue_date
    surf_mid_Dplus1 := r.surf_mid
    error := r.surf_mid - l.surf_mid
    abs_error := absQ (r.surf_mid - l.surf_mid)
    hour := l.valid_time.emod 86400 / 3600 }

/-- Does the right row match the left row's candidate key
`(valid_time, issue_date + 1 day)`? -/
def driftMatch (l r : BaseRow) : Bool :=
  decide (r.valid_time = l.valid_time) && decide (r.issue_date = l.issue_date + oneDay)

/-- `compute_24h_forecast_drift`: the exact-match inner join of the tidy
dataset with itself on `(valid_time, issue_date + 1 day)`, producing the
error and absolute-error columns. -/
def compute_24h_forecast_drift (df : List SurfRow) : List DriftPair :=
  let base := baseRows df
  (base.map (fun l => (base.filter (driftMatch l)).map (mkDriftPair l))).flatten

/-- The `__main__` reporting of `analyze_history.py` (lines 216-224): MAE
when pairs were found, otherwise the defined "no overlapping valid times"
outcome. -/
inductive DriftReport where
  | noData : DriftReport
  | mae : ℚ → DriftReport
deriving DecidableEq

/-- Summary printed after `compute_24h_forecast_drift`. -/
def driftSummary (pairs : List DriftPair) : DriftReport :=
  if pairs.isEmpty then .noData
  else .mae ((pairs.map (fun p => p.abs_error)).sum / (pairs.length : ℚ))

/-! ## Filename date tags (analyze_history.py lines 34-44,
fetch_forecast_history.py line 160, surfline_hb_northside.py line 9) -/

/-- A calendar date as `pd.Timestamp(year, month, day)` stores it. -/
structure IssueDate where
  year : ℕ
  month : ℕ
  day : ℕ
deriving DecidableEq

/-- Gregorian leap year. -/
def isLeap (y : ℕ) : Bool := (y % 4 = 0 && y % 100 ≠ 0) || y % 400 = 0

/-- Days in a month. -/
def daysInMonth (y m : ℕ) : ℕ :=
  if m = 2 then (if isLeap y then 29 else 28)
  else if m = 4 ∨ m = 6 ∨ m = 9 ∨ m = 11 then 30
  else 31

/-- `pd.Timestamp(year=..., month=..., day=...)`: validates the calendar
date and the nanosecond-representable year range, raising otherwise. -/
def pdTimestampYMD (y m d : ℕ) : Option IssueDate :=
  if 1678 ≤ y ∧ y ≤ 2261 ∧ 1 ≤ m ∧ m ≤ 12 ∧ 1 ≤ d ∧ d ≤ daysInMonth y m
  then some ⟨y, m, d⟩ else none

/-- The digit character for `n < 10`. -/
def digitChar (n : ℕ) : Char := Char.ofNat (48 + n)

/-- Numeric value of a digit character. -/
def digitVal (c : Char) : ℕ := c.toNat - 48

/-- Two-digit zero-padded field, as `strftime` `%y`/`%m`/`%d` produce. -/
def pad2 (n : ℕ) : List Char := [digitChar (n / 10 % 10), digitChar (n % 10)]

/-- Four-digit zero-padded field, as `strftime` `%Y` produces for the years
at hand. -/
def pad4 (n : ℕ) : List Char :=
  [digitChar (n / 1000 % 10), digitChar (n / 100 % 10), digitChar (n / 10 % 10), digitChar (n % 10)]

/-- `strftime("%y%m%d")` — the 6-digit tag of `surfline_hb_northside.py`. -/
def strftime_yymmdd (y m d : ℕ) : List Char := pad2 (y % 100) ++ pad2 m ++ pad2 d

/-- `strftime("%Y%m%d")` — the 8-digit tag of `harvest_forecasts_for_range`. -/
def strftime_yyyymmdd (y m d : ℕ) : List Char := pad4 y ++ pad2 m ++ pad2 d

/-- The basename `forecast_wave_{tag}.csv` written by
`surfline_hb_northside.py` for the wave command. -/
def hbWaveBaseName (y m d : ℕ) : List Char :=
  "forecast_wave_".data ++ strftime_yymmdd y m d ++ ".csv".data

/-- A harvest filename `{slug}_{kind}_{tag}.csv` from
`fetch_forecast_history.py`. -/
def harvestCsvName (slug kind : List Char) (y m d : ℕ) : List Char :=
  slug ++ ('_' :: kind) ++ ('_' :: strftime_yyyymmdd y m d) ++ ".csv".data

/-- `_parse_issue_date_from_name` from `analyze_history.py`: the regex
`re.search(r"forecast_wave_(\d{6})\.csv$", filename)` demands that the last
24 characters be `forecast_wave_` + six digits + `.csv`; on a match the tag
is read as `20YY-MM-DD` and the `pd.Timestamp` built.  `none` models both
the `ValueError` on a failed match and a `pd.Timestamp` failure. -/
def parse_issue_date_from_name (name : List Char) : Option IssueDate :=
  if (name.drop (name.length - 24)).length = 24 ∧
      (name.drop (name.length - 24)).take 14 = "forecast_wave_".data ∧
      (name.drop (name.length - 24)).drop 20 = ".csv".data ∧
      (((name.drop (name.length - 24)).drop 14).take 6).all Char.isDigit
  then
    match ((name.drop (name.length - 24)).drop 14).take 6 with
    | [a1, a2, b1, b2, e1, e2] =>
        pdTimestampYMD (2000 + (10 * digitVal a1 + digitVal a2))
          (10 * digitVal b1 + digitVal b2) (10 * digitVal e1 + digitVal e2)
    | _ => none
  else none

/-! ## Observation helpers used by the theorems -/

/-- The field-name lists of the rows a flattener returned (empty on a
raised exception).  Only looks at keys, never at values. -/
def pymRowKeys (x : PyM (List Row)) : List (List String) :=
  match x with
  | .ok rows => rows.map (fun r => r.map Prod.fst)
  | .error _ => []

/-- The number of rows a flattener returned (zero on a raised exception). -/
def rowCount (x : PyM (List Row)) : ℕ :=
  match x with
  | .ok rows => rows.length
  | .error _ => 0

/-- A one-point `wave` payload with the given timestamp and swell list. -/
def wavePayload1 (ts : JVal) (comps : List JVal) : JVal :=
  .obj [("data", .obj [("wave", .arr [.obj [("timestamp", ts), ("swells", .arr comps)]])])]

/-- A one-point `swells` payload with the given timestamp and swell list. -/
def swellsPayload1 (ts : JVal) (comps : List JVal) : JVal :=
  .obj [("data", .obj [("swells", .arr [.obj [("timestamp", ts), ("swells", .arr comps)]])])]

/-- A swell component carrying only a height. -/
def swellComp (h : ℚ) : JVal := .obj [("height", .num h)]

/-- Seven ranked swell components. -/
def sevenComps : List JVal :=
  [swellComp 1, swellComp 2, swellComp 3, swellComp 4, swellComp 5, swellComp 6, swellComp 7]

/-- The point of the spec's round-trip example:
`{timestamp: 1700000000, surf: {min: 2.1, max: 3.4}}`. -/
def c6Point : JVal :=
  .obj [("timestamp", .num 1700000000), ("surf", .obj [("min", .num (21/10)), ("max", .num (17/5))])]

/-! ## Theorems -/

/-- C10 (confirmed): for every empty row sequence, both copies of the CSV
writer return immediately with only a warning recorded: no file is created
or modified, no directory is created, and the lookup of the target path is
unchanged, so downstream readers see a missing file. -/
theorem c10_empty_write_is_noop :
    ∀ (path : String) (fs : FileSys),
      write_dict_rows [] path fs = { fs with warnings := fs.warnings ++ [path] } ∧
      (write_dict_rows [] path fs).files = fs.files ∧
      (write_dict_rows [] path fs).dirs = fs.dirs ∧
      lookupFile (write_dict_rows [] path fs) path = lookupFile fs path ∧
      waveCsv_write_dict_rows [] path fs = { fs with warnings := fs.warnings ++ [path] } := by
  intro path fs
  refine ⟨rfl, rfl, rfl, ?_, rfl⟩
  simp [write_dict_rows, lookupFile]

lemma getLoop_attemptsMade_le (resp : ℕ → HttpResp) :
    ∀ (fuel attempt : ℕ) (sleeps : List ℚ),
      (getLoop resp fuel attempt sleeps).attemptsMade ≤ attempt - 1 + fuel := by
  intro fuel
  induction fuel with
  | zero => intro attempt sleeps; simp [getLoop]
  | succ f ih =>
      intro attempt sleeps
      rw [getLoop]
      cases hr : resp attempt with
      | success p => simp; omega
      | httpErr s ra =>
          by_cases hs : s = 429
          · have h2 := ih (attempt + 1) (sleeps ++ [computeWait ra attempt])
            simp [hs]
            omega
          · simp [hs]
            omega
      | httpErrNoResp => simp; omega
      | otherExc => simp; omega

/-- C2 (confirmed): when every response is HTTP 429 with no Retry-After,
`SurflineAPI._get` issues exactly 5 attempts, sleeps 5,10,15,20,25 seconds
(strictly increasing), and raises the rate-limit `RuntimeError` rather than
returning; moreover no request ever gets more than 5 attempts, and with no
provider-supplied delay the backoff equals `base_delay * attempt`, strictly
increasing in the attempt number. -/
theorem c2_rate_limit_exhaustion (resp : ℕ → HttpResp)
    (h429 : ∀ i, 1 ≤ i → i ≤ 5 → resp i = .httpErr 429 none) :
    surfline_api_get resp =
      ⟨.error .rateLimitExhausted, [5, 10, 15, 20, 25], 5⟩ ∧
    (surfline_api_get resp).sleeps.Pairwise (fun a b => a < b) ∧
    (∀ resp2 : ℕ → HttpResp, (surfline_api_get resp2).attemptsMade ≤ 5) ∧
    (∀ attempt : ℕ, computeWait none attempt = 5 * (attempt : ℚ)) ∧
    (∀ a b : ℕ, a < b → computeWait none a < computeWait none b) := by
  have e1 := h429 1 (by norm_num) (by norm_num)
  have e2 := h429 2 (by norm_num) (by norm_num)
  have e3 := h429 3 (by norm_num) (by norm_num)
  have e4 := h429 4 (by norm_num) (by norm_num)
  have e5 := h429 5 (by norm_num) (by norm_num)
  have hrun : surfline_api_get resp =
      ⟨.error .rateLimitExhausted, [5, 10, 15, 20, 25], 5⟩ := by
    simp [surfline_api_get, getLoop, e1, e2, e3, e4, e5, computeWait]
    norm_num
  refine ⟨hrun, ?_, ?_, fun attempt => rfl, ?_⟩
  · rw [hrun]
    simp [List.pairwise_cons]
    norm_num
  · intro resp2
    have := getLoop_attemptsMade_le resp2 5 1 []
    simpa [surfline_api_get] using this
  · intro a b hab
    simp only [computeWait]
    have : (a : ℚ) < (b : ℚ) := by exact_mod_cast hab
    linarith

/-- Witness for C2 at the constant all-429 oracle. -/
theorem c2_witness :
    surfline_api_get (fun _ => .httpErr 429 none) =
      ⟨.error .rateLimitExhausted, [5, 10, 15, 20, 25], 5⟩ :=
  (c2_rate_limit_exhaustion (fun _ => .httpErr 429 none) (fun _ _ _ => rfl)).1

/-- C9 (confirmed): on an empty dataset, and more generally on any dataset
in which no row matches another row's `(valid_time, issue_date + 1 day)`
candidate key, `compute_24h_forecast_drift` returns the empty pair list
without raising, and the analysis reports the defined "no data" outcome
rather than an error. -/
theorem c9_no_data_outcome :
    compute_24h_forecast_drift [] = [] ∧
    driftSummary (compute_24h_forecast_drift []) = .noData ∧
    (∀ df : List SurfRow,
      (∀ l ∈ baseRows df, ∀ r ∈ baseRows df, driftMatch l r = false) →
      compute_24h_forecast_drift df = [] ∧
      driftSummary (compute_24h_forecast_drift df) = .noData) := by
  refine ⟨rfl, rfl, ?_⟩
  intro df h
  have hnil : compute_24h_forecast_drift df = [] := by
    simp only [compute_24h_forecast_drift, List.flatten_eq_nil_iff]
    intro L hL
    rcases List.mem_map.mp hL with ⟨l, hl, rfl⟩
    rw [List.map_eq_nil_iff, List.filter_eq_nil_iff]
    intro r hr
    simp [h l hl r hr]
  exact ⟨hnil, by rw [hnil]; rfl⟩

/-- Witness for C9 on a two-row dataset whose issue dates are 2 days apart. -/
theorem c9_witness :
    compute_24h_forecast_drift [⟨0, 0, some 1⟩, ⟨2 * 86400, 0, some 2⟩] = [] ∧
    driftSummary (compute_24h_forecast_drift [⟨0, 0, some 1⟩, ⟨2 * 86400, 0, some 2⟩]) = .noData :=
  c9_no_data_outcome.2.2 [⟨0, 0, some 1⟩, ⟨2 * 86400, 0, some 2⟩] (by decide)

lemma harvestStep_attempts (o : ℤ → SeriesKind → PyM (List Row)) (s : String)
    (day : ℤ) (st : HarvestResult) (k : SeriesKind) :
    (harvestStep o s day st k).attempts = st.attempts ++ [(day, k)] := by
  cases ho : o day k <;> simp [harvestStep, ho]

lemma foldl_harvestStep_attempts (o : ℤ → SeriesKind → PyM (List Row)) (s : String) (day : ℤ) :
    ∀ (ks : List SeriesKind) (st : HarvestResult),
      ((ks.foldl (harvestStep o s day) st)).attempts =
        st.attempts ++ ks.map (fun k => (day, k)) := by
  intro ks
  induction ks with
  | nil => intro st; simp
  | cons k ks ih =>
      intro st
      rw [List.foldl_cons, ih, harvestStep_attempts]
      simp

lemma harvest_days_attempts (o : ℤ → SeriesKind → PyM (List Row)) (s : String)
    (sub : Option String) :
    ∀ (days : List ℤ) (st : HarvestResult),
      ((days.foldl (fun st day => (seriesKinds sub).foldl (harvestStep o s day) st) st)).attempts =
        st.attempts ++ days.flatMap (fun d => (seriesKinds sub).map (fun k => (d, k))) := by
  intro days
  induction days with
  | nil => intro st; simp
  | cons day days ih =>
      intro st
      rw [List.foldl_cons, ih, foldl_harvestStep_attempts]
      simp [List.flatMap_cons]

lemma mem_dateRange {s e d : ℤ} : d ∈ dateRange s e ↔ s ≤ d ∧ d ≤ e := by
  unfold dateRange
  by_cases h : s ≤ e
  · rw [if_pos h, List.mem_map]
    constructor
    · rintro ⟨i, hi, rfl⟩
      rw [List.mem_range] at hi
      omega
    · rintro ⟨h1, h2⟩
      refine ⟨(d - s).toNat, ?_, ?_⟩
      · rw [List.mem_range]; omega
      · omega
  · rw [if_neg h]
    simp only [List.not_mem_nil, false_iff]
    omega

/-- C7 (confirmed): for every pattern of per-request failures (the oracle),
the harvest loop attempts every series kind of every day of the inclusive
date range: the attempt list equals the full cross product of days and
kinds, is independent of the failure pattern, and contains every in-range
`(day, kind)` pair. -/
theorem c7_batch_completion (oracle oracle2 : ℤ → SeriesKind → PyM (List Row))
    (spotSlug : String) (start endDay : ℤ) (subregion : Option String) :
    (harvest_forecasts_for_range oracle spotSlug start endDay subregion).attempts =
      (dateRange start endDay).flatMap (fun d => (seriesKinds subregion).map (fun k => (d, k))) ∧
    (harvest_forecasts_for_range oracle spotSlug start endDay subregion).attempts =
      (harvest_forecasts_for_range oracle2 spotSlug start endDay subregion).attempts ∧
    (∀ (d : ℤ) (k : SeriesKind), start ≤ d → d ≤ endDay → k ∈ seriesKinds subregion →
      (d, k) ∈ (harvest_forecasts_for_range oracle spotSlug start endDay subregion).attempts) := by
  have h1 : ∀ o : ℤ → SeriesKind → PyM (List Row),
      (harvest_forecasts_for_range o spotSlug start endDay subregion).attempts =
        (dateRange start endDay).flatMap (fun d => (seriesKinds subregion).map (fun k => (d, k))) := by
    intro o
    rw [harvest_forecasts_for_range, harvest_days_attempts]
    rfl
  refine ⟨h1 oracle, by rw [h1 oracle, h1 oracle2], ?_⟩
  intro d k hd1 hd2 hk
  rw [h1 oracle]
  rw [List.mem_flatMap]
  exact ⟨d, mem_dateRange.mpr ⟨hd1, hd2⟩, List.mem_map.mpr ⟨k, hk, rfl⟩⟩

/-- Witness for C7: even under an always-failing oracle, day 3's tides
fetch is still attempted in the range 2..4. -/
theorem c7_witness :
    ((3 : ℤ), SeriesKind.tides) ∈
      (harvest_forecasts_for_range (fun _ _ => .error .typeError) "hb" 2 4 none).attempts :=
  (c7_batch_completion (fun _ _ => .error .typeError) (fun _ _ => .ok []) "hb" 2 4 none).2.2
    3 .tides (by norm_num) (by norm_num) (by decide)

lemma absQ_eq_abs (q : ℚ) : absQ q = |q| := by
  by_cases h : q < 0
  · rw [absQ, if_pos h, abs_of_neg h]
  · rw [absQ, if_neg h, abs_of_nonneg (le_of_not_lt h)]

/-- C1 (confirmed): a DriftPair is produced exactly for the ordered pairs
of (NaN-free) rows whose valid times are equal and whose issue dates are
exactly one day apart, with `error = surf_mid_Dplus1 - surf_mid_D` and
`abs_error = |error|`; the spec's two-row example yields exactly one pair
with error 0.5, and rows issued 2 days apart yield zero pairs. -/
theorem c1_drift_join_exact :
    (∀ (df : List SurfRow) (p : DriftPair),
      p ∈ compute_24h_forecast_drift df ↔
        ∃ l r : BaseRow, l ∈ baseRows df ∧ r ∈ baseRows df ∧
          r.valid_time = l.valid_time ∧ r.issue_date = l.issue_date + oneDay ∧
          p = mkDriftPair l r) ∧
    (∀ l r : BaseRow,
      (mkDriftPair l r).error = r.surf_mid - l.surf_mid ∧
      (mkDriftPair l r).abs_error = |(mkDriftPair l r).error|) ∧
    compute_24h_forecast_drift
        [⟨1735689600, 1735797600, some 3⟩, ⟨1735776000, 1735797600, some (7/2)⟩] =
      [{ issue_date_D := 1735689600, valid_time := 1735797600, surf_mid_D := 3,
         next_issue_date := 1735776000, issue_date_Dplus1 := 1735776000,
         surf_mid_Dplus1 := 7/2, error := 1/2, abs_error := 1/2, hour := 6 }] ∧
    compute_24h_forecast_drift
        [⟨1735689600, 1735797600, some 3⟩, ⟨1735689600 + 2 * oneDay, 1735797600, some (7/2)⟩] =
      [] := by
  refine ⟨?_, ?_, ?_, ?_⟩
  · intro df p
    simp only [compute_24h_forecast_drift, List.mem_flatten, List.mem_map,
      exists_exists_and_eq_and, List.mem_filter, driftMatch, Bool.and_eq_true,
      decide_eq_true_eq]
    constructor
    · rintro ⟨l, hl, r, ⟨hr, hv, hi⟩, rfl⟩
      exact ⟨l, r, hl, hr, hv, hi, rfl⟩
    · rintro ⟨l, r, hl, hr, hv, hi, rfl⟩
      exact ⟨l, hl, r, ⟨hr, hv, hi⟩, rfl⟩
  · intro l r
    exact ⟨rfl, absQ_eq_abs _⟩
  · simp [compute_24h_forecast_drift, baseRows, driftMatch, mkDriftPair, oneDay, absQ]
    norm_num
  · simp [compute_24h_forecast_drift, baseRows, driftMatch, oneDay]

/-- Witness for C1: the example pair is a member of the drift output. -/
theorem c1_witness :
    ({ issue_date_D := 1735689600, valid_time := 1735797600, surf_mid_D := 3,
       next_issue_date := 1735776000, issue_date_Dplus1 := 1735776000,
       surf_mid_Dplus1 := 7/2, error := 1/2, abs_error := 1/2, hour := 6 } : DriftPair) ∈
      compute_24h_forecast_drift
        [⟨1735689600, 1735797600, some 3⟩, ⟨1735776000, 1735797600, some (7/2)⟩] := by
  rw [c1_drift_join_exact.2.2.1]
  exact List.mem_singleton.mpr rfl

lemma c8_aux (d t : ℤ) (B : List BaseRow) :
    ∀ L : List BaseRow,
      ((L.map (fun l => ((B.filter (driftMatch l)).map (mkDriftPair l)).countP
          (fun p => decide (p.issue_date_D = d ∧ p.valid_time = t)))).sum) =
        (L.countP (fun l => decide (l.issue_date = d ∧ l.valid_time = t))) *
          (B.countP (fun r => decide (r.issue_date = d + oneDay ∧ r.valid_time = t))) := by
  intro L
  induction L with
  | nil => simp
  | cons l L ih =>
      rw [List.map_cons, List.sum_cons, ih, List.countP_cons, List.countP_map]
      by_cases hl : l.issue_date = d ∧ l.valid_time = t
      · have hhead :
            List.countP
              ((fun p => decide (p.issue_date_D = d ∧ p.valid_time = t)) ∘ mkDriftPair l)
              (B.filter (driftMatch l)) = (B.filter (driftMatch l)).length := by
          rw [List.countP_eq_length]
          intro r hr
          simp [mkDriftPair, hl.1, hl.2]
        rw [hhead, ← List.countP_eq_length_filter]
        have hcongr :
            B.countP (driftMatch l) =
              B.countP (fun r => decide (r.issue_date = d + oneDay ∧ r.valid_time = t)) := by
          apply List.countP_congr
          intro r hr
          simp [driftMatch, hl.1, hl.2, and_comm]
        rw [hcongr]
        simp [hl]
        ring
      · have hhead :
            List.countP
              ((fun p => decide (p.issue_date_D = d ∧ p.valid_time = t)) ∘ mkDriftPair l)
              (B.filter (driftMatch l)) = 0 := by
          rw [List.countP_eq_zero]
          intro r hr
          simp only [Function.comp_apply, mkDriftPair, decide_eq_true_eq]
          exact hl
        rw [hhead]
        simp [hl]

/-- C8 (confirmed): for every dataset and key, the number of DriftPairs
whose day-D key is `(d, t)` equals the number of rows with key `(d, t)`
times the number of rows with key `(d + 1 day, t)` — a full cross-product
with no deduplication of duplicate keys. -/
theorem c8_cross_product (df : List SurfRow) (d t : ℤ) :
    (compute_24h_forecast_drift df).countP
        (fun p => decide (p.issue_date_D = d ∧ p.valid_time = t)) =
      ((baseRows df).countP (fun r => decide (r.issue_date = d ∧ r.valid_time = t))) *
        ((baseRows df).countP
          (fun r => decide (r.issue_date = d + oneDay ∧ r.valid_time = t))) := by
  rw [compute_24h_forecast_drift, List.countP_flatten, List.map_map]
  exact c8_aux d t (baseRows df) (baseRows df)

lemma isDigit_digitChar {n : ℕ} (h : n < 10) : (digitChar n).isDigit = true := by
  interval_cases n <;> decide

lemma digitVal_digitChar {n : ℕ} (h : n < 10) : digitVal (digitChar n) = n := by
  interval_cases n <;> decide

lemma daysInMonth_le_31 (y m : ℕ) : daysInMonth y m ≤ 31 := by
  unfold daysInMonth
  split_ifs <;> omega

/-- C5 (corrected, amended part): for the single-day fetcher's filenames
`forecast_wave_%y%m%d.csv`, the date tag is 6 digits and
`_parse_issue_date_from_name` recovers exactly the original issue date for
every valid calendar date with year 2000-2099.  (The claim's universal
statement over every harvested filename fails: see the counterexample on
`harvest_forecasts_for_range`'s 8-digit `%Y%m%d` tags.) -/
theorem c5_sixdigit_roundtrip (y m d : ℕ) (hy1 : 2000 ≤ y) (hy2 : y ≤ 2099)
    (hm1 : 1 ≤ m) (hm2 : m ≤ 12) (hd1 : 1 ≤ d) (hd2 : d ≤ daysInMonth y m) :
    (strftime_yymmdd y m d).length = 6 ∧
    parse_issue_date_from_name (hbWaveBaseName y m d) = some ⟨y, m, d⟩ := by
  have h1 : y % 100 / 10 % 10 < 10 := Nat.mod_lt _ (by norm_num)
  have h2 : y % 100 % 10 < 10 := Nat.mod_lt _ (by norm_num)
  have h3 : m / 10 % 10 < 10 := Nat.mod_lt _ (by norm_num)
  have h4 : m % 10 < 10 := Nat.mod_lt _ (by norm_num)
  have h5 : d / 10 % 10 < 10 := Nat.mod_lt _ (by norm_num)
  have h6 : d % 10 < 10 := Nat.mod_lt _ (by norm_num)
  constructor
  · simp [strftime_yymmdd, pad2]
  · unfold parse_issue_date_from_name
    rw [show ((hbWaveBaseName y m d).drop ((hbWaveBaseName y m d).length - 24)) =
          hbWaveBaseName y m d from rfl]
    rw [show (hbWaveBaseName y m d).length = 24 from rfl]
    rw [show (hbWaveBaseName y m d).take 14 = "forecast_wave_".data from rfl]
    rw [show (hbWaveBaseName y m d).drop 20 = ".csv".data from rfl]
    rw [show ((hbWaveBaseName y m d).drop 14).take 6 =
          [digitChar (y % 100 / 10 % 10), digitChar (y % 100 % 10),
           digitChar (m / 10 % 10), digitChar (m % 10),
           digitChar (d / 10 % 10), digitChar (d % 10)] from rfl]
    rw [if_pos ⟨rfl, rfl, rfl, by
      simp [List.all_cons, isDigit_digitChar h1, isDigit_digitChar h2, isDigit_digitChar h3,
        isDigit_digitChar h4, isDigit_digitChar h5, isDigit_digitChar h6]⟩]
    show pdTimestampYMD (2000 + (10 * digitVal (digitChar (y % 100 / 10 % 10)) +
        digitVal (digitChar (y % 100 % 10))))
      (10 * digitVal (digitChar (m / 10 % 10)) + digitVal (digitChar (m % 10)))
      (10 * digitVal (digitChar (d / 10 % 10)) + digitVal (digitChar (d % 10))) =
      some ⟨y, m, d⟩
    rw [digitVal_digitChar h1, digitVal_digitChar h2, digitVal_digitChar h3,
      digitVal_digitChar h4, digitVal_digitChar h5, digitVal_digitChar h6]
    have ey : 2000 + (10 * (y % 100 / 10 % 10) + y % 100 % 10) = y := by omega
    have em : 10 * (m / 10 % 10) + m % 10 = m := by omega
    have ed : 10 * (d / 10 % 10) + d % 10 = d := by
      have := daysInMonth_le_31 y m
      omega
    rw [ey, em, ed]
    unfold pdTimestampYMD
    rw [if_pos ⟨by omega, by omega, hm1, hm2, hd1, hd2⟩]

/-- Witness for C5 at the date 2025-11-10 (the spec's own example). -/
theorem c5_witness :
    parse_issue_date_from_name (hbWaveBaseName 2025 11 10) = some ⟨2025, 11, 10⟩ :=
  (c5_sixdigit_roundtrip 2025 11 10 (by norm_num) (by norm_num) (by norm_num)
    (by norm_num) (by norm_num) (by decide)).2

/-- C5 counterexample: `harvest_forecasts_for_range` tags the issue date
2025-01-02 as the 8-digit `20250102` (not 6 digits), and the drift
analyzer's filename parser rejects the resulting harvest filename. -/
theorem c5_counterexample :
    (strftime_yyyymmdd 2025 1 2).length = 8 ∧
    strftime_yyyymmdd 2025 1 2 = "20250102".data ∧
    ((8 : ℕ) = 6 → False) ∧
    harvestCsvName "hb".data "surf".data 2025 1 2 = "hb_surf_20250102.csv".data ∧
    parse_issue_date_from_name (harvestCsvName "hb".data "surf".data 2025 1 2) = none := by
  decide

lemma pyOr_arr_nil (xs : List JVal) : pyOr (.arr xs) (.arr []) = .arr xs := by
  cases xs with
  | nil => rfl
  | cons a as => rfl

lemma pym_bind_ok (a : α) (f : α → PyM β) : (Except.ok a : PyM α) >>= f = f a := rfl

lemma pym_pure (a : α) : (pure a : PyM α) = Except.ok a := rfl

lemma pym_map_ok (f : α → β) (a : α) : f <$> (Except.ok a : PyM α) = .ok (f a) := rfl

/-- C3 counterexample: `SurfCSV.flatten` raises `AttributeError` on a
payload whose series holds a wrongly-typed (non-dict) point, so the claim's
"never raises an exception for every payload" is false for that variant. -/
theorem c3_counterexample :
    SurfCSV_flatten (.obj [("data", .obj [("surf", .arr [.num 1])])]) =
      .error .attributeError := rfl

/-- C3 (corrected, amended part): a payload missing the series list yields
the empty sequence without raising — proved universally for every variant:
`SurfCSV`, `SwellsCSV` and `SpectraCSV` on any data dict whose kind key is
falsy and which has no list-valued entry (the first-list fallback), and
`WaveCSV` on any data dict whose `wave` and `waveModel` keys are falsy —
and likewise for the payload with no data dict at all; moreover
`SpectraCSV.flatten`, whose accesses are all isinstance-guarded, never
raises on any falsy or dict payload.  The other variants can raise on
wrongly-typed sub-structures (see the counterexample). -/
theorem c3_amended :
    (∀ kvs : List (String × JVal),
      (∀ kv ∈ kvs, kv.2.isArrB = false) →
      truthy ((objLookup kvs "surf").getD .null) = false →
      SurfCSV_flatten (.obj [("data", .obj kvs)]) = .ok []) ∧
    (∀ kvs : List (String × JVal),
      (∀ kv ∈ kvs, kv.2.isArrB = false) →
      truthy ((objLookup kvs "swells").getD .null) = false →
      SwellsCSV_flatten (.obj [("data", .obj kvs)]) = .ok []) ∧
    (∀ kvs : List (String × JVal),
      truthy ((objLookup kvs "wave").getD .null) = false →
      truthy ((objLookup kvs "waveModel").getD .null) = false →
      WaveCSV_flatten (.obj [("data", .obj kvs)]) = .ok []) ∧
    (∀ kvs : List (String × JVal),
      (∀ kv ∈ kvs, kv.2.isArrB = false) →
      truthy ((objLookup kvs "spectra").getD .null) = false →
      SpectraCSV_flatten (.obj [("data", .obj kvs)]) = .ok []) ∧
    SurfCSV_flatten (.obj []) = .ok [] ∧
    SwellsCSV_flatten (.obj []) = .ok [] ∧
    WaveCSV_flatten (.obj []) = .ok [] ∧
    SpectraCSV_flatten (.obj []) = .ok [] ∧
    (∀ v : JVal, truthy v = false ∨ v.isObjB = true →
      (SpectraCSV_flatten v).isOk = true) := by
  refine ⟨?_, ?_, ?_, ?_, rfl, rfl, rfl, rfl, ?_⟩
  · intro kvs hns hsurf
    have hfind : kvs.find? (fun kv => kv.2.isArrB) = none :=
      List.find?_eq_none.mpr (fun kv hkv => by simp [hns kv hkv])
    have hdata : dictGet (pyOr (.obj [("data", .obj kvs)]) (.obj [])) "data" (.obj []) =
        .ok (.obj kvs) := by
      simp [pyOr, truthy, dictGet, objLookup]
    have hs1 : dictGet (.obj kvs) "surf" .null = .ok ((objLookup kvs "surf").getD .null) := rfl
    have hfl : first_list_in_data (.obj kvs) = .ok (.arr []) := by
      simp [first_list_in_data, firstListOfObj, hfind]
    simp only [SurfCSV_flatten, hdata, pym_bind_ok, hs1, hsurf, Bool.false_eq_true,
      if_false, hfl, pyOr_arr_nil, pyIter, mapME, pym_pure]
  · intro kvs hns hsw
    have hfind : kvs.find? (fun kv => kv.2.isArrB) = none :=
      List.find?_eq_none.mpr (fun kv hkv => by simp [hns kv hkv])
    have hdata : dictGet (pyOr (.obj [("data", .obj kvs)]) (.obj [])) "data" (.obj []) =
        .ok (.obj kvs) := by
      simp [pyOr, truthy, dictGet, objLookup]
    have hs1 : dictGet (.obj kvs) "swells" .null =
        .ok ((objLookup kvs "swells").getD .null) := rfl
    have hfl : first_list_in_data (.obj kvs) = .ok (.arr []) := by
      simp [first_list_in_data, firstListOfObj, hfind]
    simp only [SwellsCSV_flatten, hdata, pym_bind_ok, hs1, hsw, Bool.false_eq_true,
      if_false, hfl, pyOr_arr_nil, pyIter, mapME, pym_pure, pym_map_ok,
      List.flatten_nil]
  · intro kvs hw1 hw2
    have hdata : dictGet (pyOr (.obj [("data", .obj kvs)]) (.obj [])) "data" (.obj []) =
        .ok (.obj kvs) := by
      simp [pyOr, truthy, dictGet, objLookup]
    have ha : dictGet (.obj kvs) "wave" .null = .ok ((objLookup kvs "wave").getD .null) := rfl
    have hb : dictGet (.obj kvs) "waveModel" .null =
        .ok ((objLookup kvs "waveModel").getD .null) := rfl
    have hpy : pyOr ((objLookup kvs "waveModel").getD .null) (.arr []) = .arr [] := by
      simp [pyOr, hw2]
    simp only [WaveCSV_flatten, hdata, pym_bind_ok, ha, hw1, Bool.false_eq_true,
      if_false, hb, hpy, pym_pure, pyIter, mapME]
  · intro kvs hns hsp
    have hfind : kvs.find? (fun kv => kv.2.isArrB) = none :=
      List.find?_eq_none.mpr (fun kv hkv => by simp [hns kv hkv])
    have hdata : dictGet (pyOr (.obj [("data", .obj kvs)]) (.obj [])) "data" (.obj []) =
        .ok (.obj kvs) := by
      simp [pyOr, truthy, dictGet, objLookup]
    have hfl : firstListOfObj kvs = .arr [] := by
      simp [firstListOfObj, hfind]
    have hpy : pyOr ((objLookup kvs "spectra").getD .null) (firstListOfObj kvs) =
        .arr [] := by
      rw [hfl]
      simp [pyOr, hsp]
    simp only [SpectraCSV_flatten, hdata, pym_bind_ok, pym_pure, spectraFromData, hpy,
      List.foldl_nil]
  · intro v h
    rcases h with h | h
    · have hpy : pyOr v (.obj []) = .obj [] := by simp [pyOr, h]
      simp only [SpectraCSV_flatten, hpy, dictGet, objLookup, pym_bind_ok, pym_pure,
        Except.isOk]
      rfl
    · cases v with
      | obj kvs =>
          have hpy : ∃ kvs2, pyOr (.obj kvs) (.obj []) = .obj kvs2 := by
            by_cases ht : truthy (.obj kvs) <;> simp [pyOr, ht]
          rcases hpy with ⟨kvs2, hpy⟩
          simp only [SpectraCSV_flatten, hpy, dictGet, pym_bind_ok, pym_pure, Except.isOk]
          rfl
      | null => exact absurd h (by simp [JVal.isObjB])
      | jbool b => exact absurd h (by simp [JVal.isObjB])
      | num q => exact absurd h (by simp [JVal.isObjB])
      | jstr s => exact absurd h (by simp [JVal.isObjB])
      | arr xs => exact absurd h (by simp [JVal.isObjB])

/-- Witness for C3: a data dict with a single non-list, non-series entry
exercises all four universal missing-series conjuncts, and a falsy payload
exercises the `SpectraCSV` totality conjunct. -/
theorem c3_witness :
    SurfCSV_flatten (.obj [("data", .obj [("foo", .num 1)])]) = .ok [] ∧
    SwellsCSV_flatten (.obj [("data", .obj [("foo", .num 1)])]) = .ok [] ∧
    WaveCSV_flatten (.obj [("data", .obj [("foo", .num 1)])]) = .ok [] ∧
    SpectraCSV_flatten (.obj [("data", .obj [("foo", .num 1)])]) = .ok [] ∧
    (SpectraCSV_flatten (.arr [])).isOk = true :=
  ⟨c3_amended.1 [("foo", .num 1)] (by decide) (by decide),
   c3_amended.2.1 [("foo", .num 1)] (by decide) (by decide),
   c3_amended.2.2.1 [("foo", .num 1)] (by decide) (by decide),
   c3_amended.2.2.2.1 [("foo", .num 1)] (by decide) (by decide),
   c3_amended.2.2.2.2.2.2.2.2 (.arr []) (Or.inl (by decide))⟩

/-- C6 counterexample: on the spec's example payload, `SurfCSV.flatten`
does not return the bare three-field row — the produced row carries an
additional `surf_humanRelation` field (set to null). -/
theorem c6_counterexample :
    ¬ (SurfCSV_flatten (.obj [("data", .obj [("surf", .arr [c6Point])])]) =
        .ok [[("timestamp", .num 1700000000), ("surf_min", .num (21/10)),
              ("surf_max", .num (17/5))]]) := by
  intro h
  exact absurd (congrArg pymRowKeys h) (by decide)

/-- C6 (corrected, amended part): on a series containing the single point
`{timestamp: 1700000000, surf: {min: 2.1, max: 3.4}}`, `WaveCSV.flatten`
yields exactly one row `{timestamp, surf_min, surf_max}` with no additional
fields, while `SurfCSV.flatten` yields that row plus one extra
`surf_humanRelation: null` field. -/
theorem c6_roundtrip_amended :
    WaveCSV_flatten (.obj [("data", .obj [("wave", .arr [c6Point])])]) =
      .ok [[("timestamp", .num 1700000000), ("surf_min", .num (21/10)),
            ("surf_max", .num (17/5))]] ∧
    SurfCSV_flatten (.obj [("data", .obj [("surf", .arr [c6Point])])]) =
      .ok [[("timestamp", .num 1700000000), ("surf_min", .num (21/10)),
            ("surf_max", .num (17/5)), ("surf_humanRelation", .null)]] :=
  ⟨rfl, rfl⟩

def sixComps : List JVal :=
  [swellComp 1, swellComp 2, swellComp 3, swellComp 4, swellComp 5, swellComp 6]

/-- C4 counterexample: `SwellsCSV.flatten` does not truncate at 6 — a
point with 7 swell components produces 7 rows, so the claim's "holds for
every flattener that handles swell components" is false. -/
theorem c4_counterexample :
    rowCount (SwellsCSV_flatten (swellsPayload1 (.num 1700000000) sevenComps)) = 7 ∧
    ((7 : ℕ) = 6 → False) :=
  ⟨rfl, by norm_num⟩

lemma truthy_arr_cons (x : JVal) (xs : List JVal) : truthy (.arr (x :: xs)) = true := rfl

lemma pyOr_obj_cons (kv : String × JVal) (kvs : List (String × JVal)) (w : JVal) :
    pyOr (.obj (kv :: kvs)) w = .obj (kv :: kvs) := rfl

lemma swells_mapME_length (ts : JVal) :
    ∀ (comps : List JVal) (n : ℕ), (∀ c ∈ comps, c.isObjB = true) →
      ∃ rows, mapME (swellsCompRow ts) (enumFromN n comps) = .ok rows ∧
        rows.length = comps.length := by
  intro comps
  induction comps with
  | nil => intro n h; exact ⟨[], rfl, rfl⟩
  | cons c cs ih =>
      intro n h
      rcases ih (n + 1) (fun x hx => h x (List.mem_cons_of_mem _ hx)) with ⟨rows, hrows, hlen⟩
      have hc : c.isObjB = true := h c (List.mem_cons_self c cs)
      cases c with
      | obj kvs =>
          refine ⟨rowUpdate [("timestamp", ts), ("component_index", .num (n : ℚ))]
              (scalarFieldsOf kvs "swell_") :: rows, ?_, ?_⟩
          · simp [enumFromN, mapME, swellsCompRow, flatten_simple_fields, hrows, pym_bind_ok,
              pym_pure]
          · simp [hlen]
      | null => exact absurd hc (by simp [JVal.isObjB])
      | jbool b => exact absurd hc (by simp [JVal.isObjB])
      | num q => exact absurd hc (by simp [JVal.isObjB])
      | jstr s => exact absurd hc (by simp [JVal.isObjB])
      | arr xs => exact absurd hc (by simp [JVal.isObjB])

/-- C4 (corrected, amended part): `WaveCSV.flatten` emits fields for
exactly the first 6 ranked components indexed from 1 — appending components
beyond a 6-long list never changes its output, and a 7-component point
yields exactly the `swell1_*`..`swell6_*` fields; `SwellsCSV.flatten`
instead emits one row per component for the whole list (no truncation). -/
theorem c4_swell_truncation (ts : JVal) :
    (∀ comps extra : List JVal, comps.length = 6 →
      WaveCSV_flatten (wavePayload1 ts (comps ++ extra)) =
        WaveCSV_flatten (wavePayload1 ts comps)) ∧
    WaveCSV_flatten (wavePayload1 (.num 1700000000) sevenComps) =
      .ok [[("timestamp", .num 1700000000), ("surf_min", .null), ("surf_max", .null),
            ("swell1_height_m", .num 1), ("swell1_period_s", .null), ("swell1_direction_deg", .null),
            ("swell2_height_m", .num 2), ("swell2_period_s", .null), ("swell2_direction_deg", .null),
            ("swell3_height_m", .num 3), ("swell3_period_s", .null), ("swell3_direction_deg", .null),
            ("swell4_height_m", .num 4), ("swell4_period_s", .null), ("swell4_direction_deg", .null),
            ("swell5_height_m", .num 5), ("swell5_period_s", .null), ("swell5_direction_deg", .null),
            ("swell6_height_m", .num 6), ("swell6_period_s", .null), ("swell6_direction_deg", .null)]] ∧
    (∀ (ts2 : JVal) (comps : List JVal), (∀ c ∈ comps, c.isObjB = true) →
      ∃ rows, SwellsCSV_flatten (swellsPayload1 ts2 comps) = .ok rows ∧
        rows.length = comps.length) := by
  refine ⟨?_, rfl, ?_⟩
  · intro comps extra hlen
    have htake : (comps ++ extra).take 6 = comps.take 6 := by
      rw [List.take_append_eq_append_take, hlen]
      simp
    simp [WaveCSV_flatten, wavePayload1, waveFlattenPoint, dictGet, objLookup,
      pyIter, mapME, pym_bind_ok, pym_pure, pyOr_obj_cons, pyOr_arr_nil,
      truthy_arr_cons, htake]
  · intro ts2 comps hobj
    rcases swells_mapME_length ts2 comps 1 hobj with ⟨rows, hrows, hlen⟩
    refine ⟨rows, ?_, hlen⟩
    have hpoint : swellsFlattenPoint (.obj [("timestamp", ts2), ("swells", .arr comps)]) =
        .ok rows := by
      simp [swellsFlattenPoint, dictGet, objLookup, pym_bind_ok, pym_pure, pyOr_arr_nil,
        hrows]
    simp [SwellsCSV_flatten, swellsPayload1, dictGet, objLookup, pyIter, mapME,
      pym_bind_ok, pym_pure, pym_map_ok, pyOr_obj_cons, pyOr_arr_nil, truthy_arr_cons,
      hpoint]

/-- Witness for C4 on six-plus-one and seven-component swell lists. -/
theorem c4_witness :
    WaveCSV_flatten (wavePayload1 (.num 1700000000) (sixComps ++ [swellComp 7])) =
      WaveCSV_flatten (wavePayload1 (.num 1700000000) sixComps) ∧
    (∃ rows, SwellsCSV_flatten (swellsPayload1 (.num 1700000000) sevenComps) = .ok rows ∧
      rows.length = sevenComps.length) :=
  ⟨(c4_swell_truncation (.num 1700000000)).1 sixComps [swellComp 7] rfl,
   (c4_swell_truncation (.num 1700000000)).2.2 (.num 1700000000) sevenComps (by decide)⟩
